import Mathlib

/-!
Shallow embedding of `adobe-rnd/helix-version-picker` (src/src/index.js and
the variant in src/unnamed/part_000).

The handler validates the `x-owner` / `x-repo` / `x-ref` / `x-repo-root-path`
request fields, builds a raw-content URL with `computeGithubURI`, performs a
single outbound GET and maps the outcome to a response.  Effects are made
explicit: the outbound fetch is an oracle parameter `String → FetchResult`
(covering HTTP replies and thrown transport/timeout errors), `getVersion`
returns `Except` instead of throwing, and `main` additionally returns the
list of URLs it fetched, so that "no outbound call" and "a single GET" are
statable.
-/

namespace HelixVersionPicker

/-- Embedding of `.replace(/\/+/g, '/')` from `computeGithubURI`
(src/src/index.js line 34): replace every maximal run of consecutive `'/'` characters by a
single `'/'`.  The flag records whether the previous character was `'/'`
(i.e. whether we are inside a run whose single `'/'` is already emitted). -/
def collapseSlashesAux : Bool → List Char → List Char
  | _, [] => []
  | inRun, c :: rest =>
    if c = '/' then
      if inRun then collapseSlashesAux true rest
      else '/' :: collapseSlashesAux true rest
    else c :: collapseSlashesAux false rest

/-- String form of the slash-collapsing replace. -/
def collapseSlashes (s : String) : String :=
  ⟨collapseSlashesAux false s.data⟩

/-- Split a character list at the first occurrence of `://`: the part
before it and the part after it. -/
def splitScheme : List Char → Option (List Char × List Char)
  | [] => none
  | ':' :: '/' :: '/' :: rest => some ([], rest)
  | c :: rest =>
    match splitScheme rest with
    | none => none
    | some (pre, post) => some (c :: pre, post)

/-- Modelled from Node's `url` module (an external library, not part of this
repository), restricted to how `computeGithubURI` uses it: `URL.parse(root)`
viewed as the pair (everything before the path, the `path` property).
For a root of the form `scheme://host...` the path starts at the first `/`
after the host, and is `"/"` when the host has no trailing path (the
repository's own test with root `https://www.example.com` pins this down);
a scheme-less non-empty root is all path (Node parses it as a relative
path); `URL.parse('')` has a `null` path, rendered here as `none`. -/
def splitRoot (root : String) : String × Option String :=
  if root = "" then ("", none)
  else
    match splitScheme root.data with
    | none => ("", some root)
    | some (scheme, tail) =>
      let host := tail.takeWhile (fun c => c != '/')
      let rest := tail.dropWhile (fun c => c != '/')
      let pre : String := ⟨scheme ++ (':' :: '/' :: '/' :: host)⟩
      if rest = [] then (pre, some "/") else (pre, some ⟨rest⟩)

/-- Embedding of `computeGithubURI(root, owner, repo, ref, path)` (src/src/index.js
lines 30-41): parse the root, append `/{owner}/{repo}/{ref}/{path}` to its
path, collapse runs of slashes, and format the result back.  A `null` root
path is rendered `"null"` by the JS template literal, hence `Option.getD
"null"`. -/
def computeGithubURI (root owner repo ref path : String) : String :=
  let rootPath := (splitRoot root).2.getD "null"
  let fullPath :=
    collapseSlashes (rootPath ++ "/" ++ owner ++ "/" ++ repo ++ "/" ++ ref ++ "/" ++ path)
  (splitRoot root).1 ++ fullPath

/-- Outcome of the single outbound `fetch` together with reading the body:
an HTTP reply with a status code and body text, or a thrown
network/timeout (transport) error. -/
inductive FetchResult where
  | ok (status : Nat) (text : String)
  | netError
deriving DecidableEq

/-- The code points `String.prototype.trim` removes (JS WhiteSpace and
LineTerminator), modelled from the JS runtime the code runs on. -/
def isJsWhitespace (c : Char) : Bool :=
  c == ' ' || c == '\t' || c == '\n' || c == '\r' ||
  c == '\x0b' || c == '\x0c' || c == '\u00A0' || c == '\u1680' ||
  ('\u2000' ≤ c && c ≤ '\u200A') || c == '\u2028' || c == '\u2029' ||
  c == '\u202F' || c == '\u205F' || c == '\u3000' || c == '\uFEFF'

/-- Strip leading and trailing JS whitespace, as `text.trim()` does. -/
def jsTrim (s : String) : String :=
  ⟨((s.data.dropWhile isJsWhitespace).reverse.dropWhile isJsWhitespace).reverse⟩

/-- Embedding of `getVersion(url)` (src/src/index.js lines 59-75) with the fetch outcome
supplied as an argument: on `resp.ok` (status in 200..299) return the
trimmed body text, on any other status except 404 throw a `github error`,
on 404 return `''`.  A transport error propagates as `.error`. -/
def getVersion : FetchResult → Except String String
  | .netError => .error "network or timeout error"
  | .ok status text =>
    if 200 ≤ status ∧ status < 300 then .ok (jsTrim text)
    else if status ≠ 404 then .error ("github error: " ++ toString status ++ " " ++ text)
    else .ok ""

/-- The response content the handler produces: status code, body and
headers (in the order the source lists them). -/
structure JsResponse where
  statusCode : Nat
  body : String
  headers : List (String × String)
deriving DecidableEq

/-- The four request fields; `none` models an absent header, `some ""` a
header supplied with an empty value (both are falsy in JS). -/
structure Params where
  owner : Option String
  repo : Option String
  ref : Option String
  root : Option String
deriving DecidableEq

/-- JS truthiness of a possibly-absent string: `undefined`/`null` and `''`
are falsy, every other string truthy. -/
def jsTruthy : Option String → Bool
  | none => false
  | some s => s != ""

def cacheControl : String := "no-store, private, must-revalidate"

def defaultRoot : String := "https://raw.githubusercontent.com/"

/-- Embedding of `error(message, statusCode)` (src/src/index.js lines 49-57). -/
def errorResponse (message : String) (statusCode : Nat) : JsResponse :=
  { statusCode := statusCode
    headers := [("Cache-Control", cacheControl)]
    body := message }

/-- Embedding of `main(params)` of src/src/index.js (lines 81-132).  The fetch oracle
stands for the network; the second component records the URLs fetched.
The destructuring default for `x-repo-root-path` applies exactly when the
field is absent (`Option.getD`); validation rejects a missing or empty
owner, repo or ref. -/
def main (p : Params) (oracle : String → FetchResult) : JsResponse × List String :=
  let owner := p.owner.getD ""
  let repo := p.repo.getD ""
  let ref := p.ref.getD ""
  let root := p.root.getD defaultRoot
  if owner = "" ∨ repo = "" ∨ ref = "" then
    (errorResponse "owner, repo, ref required." 400, [])
  else
    let url := computeGithubURI root owner repo ref "/helix-version.txt"
    match getVersion (oracle url) with
    | .error _ => (errorResponse "unable to fetch version" 504, [url])
    | .ok version =>
      let surrogateKey := "preflight-" ++ ref ++ "--" ++ repo ++ "--" ++ owner
      if version ≠ "" then
        ({ statusCode := 200
           body := version
           headers := [("x-pages-version", version),
             ("Cache-Control", cacheControl),
             ("Surrogate-Control", "max-age: 30"),
             ("Surrogate-Key", surrogateKey),
             ("Vary", "X-Owner,X-Repo,X-Ref,X-Repo-Root-Path")] }, [url])
      else
        ({ statusCode := 200
           body := "no version"
           headers := [("Cache-Control", cacheControl),
             ("Surrogate-Control", "max-age: 30"),
             ("Surrogate-Key", surrogateKey),
             ("Vary", "X-Owner,X-Repo,X-Ref,X-Repo-Root-Path")] }, [url])

/-- Embedding of `main(request, context)` of src/unnamed/part_000 (lines 80-125), with
the Response objects it builds projected to their status/body/headers
content.  It differs from the other variant in the root default:
`request.headers.get('x-repo-root-path') || default` falls back to the
default also when the header is present but empty. -/
def mainPart000 (p : Params) (oracle : String → FetchResult) : JsResponse × List String :=
  let owner := p.owner.getD ""
  let repo := p.repo.getD ""
  let ref := p.ref.getD ""
  let root := if jsTruthy p.root then p.root.getD "" else defaultRoot
  if owner = "" ∨ repo = "" ∨ ref = "" then
    (errorResponse "owner, repo, ref required." 400, [])
  else
    let url := computeGithubURI root owner repo ref "/helix-version.txt"
    match getVersion (oracle url) with
    | .error _ => (errorResponse "unable to fetch version" 504, [url])
    | .ok version =>
      let surrogateKey := "preflight-" ++ ref ++ "--" ++ repo ++ "--" ++ owner
      if version ≠ "" then
        ({ statusCode := 200
           body := version
           headers := [("x-pages-version", version),
             ("Cache-Control", cacheControl),
             ("Surrogate-Control", "max-age: 30"),
             ("Surrogate-Key", surrogateKey),
             ("Vary", "X-Owner,X-Repo,X-Ref,X-Repo-Root-Path")] }, [url])
      else
        ({ statusCode := 200
           body := "no version"
           headers := [("Cache-Control", cacheControl),
             ("Surrogate-Control", "max-age: 30"),
             ("Surrogate-Key", surrogateKey),
             ("Vary", "X-Owner,X-Repo,X-Ref,X-Repo-Root-Path")] }, [url])

/-- No two adjacent characters of a collapsed list are both slashes; when
the run flag is set the output moreover does not start with a slash. -/
theorem collapseSlashesAux_chain (l : List Char) :
    ∀ b : Bool,
      List.Chain' (fun a c => ¬(a = '/' ∧ c = '/')) (collapseSlashesAux b l) ∧
        (collapseSlashesAux true l).head? ≠ some '/' := by
  induction l with
  | nil => intro b; exact ⟨List.chain'_nil, by simp [collapseSlashesAux]⟩
  | cons c rest ih =>
    intro b
    by_cases hc : c = '/'
    · subst hc
      constructor
      · cases b with
        | true => simpa [collapseSlashesAux] using (ih true).1
        | false =>
          have hstep : collapseSlashesAux false ('/' :: rest)
              = '/' :: collapseSlashesAux true rest := by
            simp [collapseSlashesAux]
          rw [hstep, List.chain'_cons']
          refine ⟨?_, (ih true).1⟩
          intro y hy hcon
          exact (ih true).2 (by rw [hy, hcon.2])
      · simpa [collapseSlashesAux] using (ih true).2
    · have hstep : ∀ b', collapseSlashesAux b' (c :: rest)
          = c :: collapseSlashesAux false rest := by
        intro b'; simp [collapseSlashesAux, hc]
      constructor
      · rw [hstep b, List.chain'_cons']
        exact ⟨fun y _ hcon => hc hcon.1, (ih false).1⟩
      · rw [hstep true]
        simp
        intro h
        exact hc h

/-- A collapsed string never contains two consecutive slashes. -/
theorem collapseSlashes_no_double_slash (s : String) :
    ¬ (['/', '/'] <:+: (collapseSlashes s).data) := by
  intro hinf
  obtain ⟨u, v, huv⟩ := hinf
  have hchain := (collapseSlashesAux_chain s.data false).1
  have hdata : (collapseSlashes s).data = collapseSlashesAux false s.data := rfl
  rw [hdata] at huv
  rw [← huv, List.chain'_append, List.chain'_append] at hchain
  exact (List.chain'_pair.mp hchain.1.2.1) ⟨rfl, rfl⟩

example :
    computeGithubURI defaultRoot "test-owner" "test-repo" "main" "/helix-version.txt"
      = "https://raw.githubusercontent.com/test-owner/test-repo/main/helix-version.txt" := by
  decide

example :
    computeGithubURI "https://www.example.com" "test-owner" "test-repo" "main" "/helix-version.txt"
      = "https://www.example.com/test-owner/test-repo/main/helix-version.txt" := by
  decide

/-- C1: whenever owner, repo or ref is missing or empty, `main` returns
exactly the 400 response with body `"owner, repo, ref required."` and the
single `Cache-Control` header, and performs no outbound fetch (the trace
of fetched URLs is empty). -/
theorem c1_missing_field_400 (p : Params) (oracle : String → FetchResult)
    (h : p.owner = none ∨ p.owner = some "" ∨ p.repo = none ∨ p.repo = some ""
      ∨ p.ref = none ∨ p.ref = some "") :
    main p oracle =
      ({ statusCode := 400
         body := "owner, repo, ref required."
         headers := [("Cache-Control", "no-store, private, must-revalidate")] }, []) := by
  obtain ⟨ow, rp, rf, rt⟩ := p
  simp only [Params.owner, Params.repo, Params.ref] at h
  have hcond : ow.getD "" = "" ∨ rp.getD "" = "" ∨ rf.getD "" = "" := by
    rcases h with h | h | h | h | h | h <;> simp [h]
  simp [main, hcond, errorResponse, cacheControl]

/-- C1 witness: a request missing the owner gets the 400 response and no
fetch happens. -/
theorem c1_witness :
    main ⟨none, some "test-repo", some "main", none⟩ (fun _ => FetchResult.netError) =
      ({ statusCode := 400
         body := "owner, repo, ref required."
         headers := [("Cache-Control", "no-store, private, must-revalidate")] }, []) :=
  c1_missing_field_400 _ _ (Or.inl rfl)

/-- C2: for a valid request whose outbound GET returns a 2xx status with a
body whose trimmed form is non-empty, `main` returns 200 with the trimmed
version as body and exactly the five headers of the success response. -/
theorem c2_success_version (o r f : String) (rt : Option String)
    (oracle : String → FetchResult) (st : Nat) (t : String)
    (ho : o ≠ "") (hr : r ≠ "") (hf : f ≠ "")
    (h200 : 200 ≤ st) (h300 : st < 300)
    (hfetch : oracle (computeGithubURI (rt.getD defaultRoot) o r f "/helix-version.txt")
      = FetchResult.ok st t)
    (hv : jsTrim t ≠ "") :
    (main ⟨some o, some r, some f, rt⟩ oracle).1 =
      { statusCode := 200
        body := jsTrim t
        headers := [("x-pages-version", jsTrim t),
          ("Cache-Control", "no-store, private, must-revalidate"),
          ("Surrogate-Control", "max-age: 30"),
          ("Surrogate-Key", "preflight-" ++ f ++ "--" ++ r ++ "--" ++ o),
          ("Vary", "X-Owner,X-Repo,X-Ref,X-Repo-Root-Path")] } := by
  simp only [main, Option.getD_some]
  rw [if_neg (by simp [ho, hr, hf]), hfetch]
  simp only [getVersion, if_pos (And.intro h200 h300)]
  rw [if_pos hv]
  rfl

/-- C2 witness: the repository's own test case (owner `test-owner`, repo
`test-repo`, ref `main`, remote body `foo-bar`). -/
theorem c2_witness :
    (main ⟨some "test-owner", some "test-repo", some "main", none⟩
        (fun _ => FetchResult.ok 200 "foo-bar")).1 =
      { statusCode := 200
        body := "foo-bar"
        headers := [("x-pages-version", "foo-bar"),
          ("Cache-Control", "no-store, private, must-revalidate"),
          ("Surrogate-Control", "max-age: 30"),
          ("Surrogate-Key", "preflight-main--test-repo--test-owner"),
          ("Vary", "X-Owner,X-Repo,X-Ref,X-Repo-Root-Path")] } :=
  c2_success_version "test-owner" "test-repo" "main" none _ 200 "foo-bar"
    (by decide) (by decide) (by decide) (by decide) (by decide) rfl (by decide)

/-- C3: for a valid request whose outbound GET returns 404, `main` does not
fail: it returns 200 with body `"no version"` and the success headers
without `x-pages-version`. -/
theorem c3_404_no_version (o r f : String) (rt : Option String)
    (oracle : String → FetchResult) (t : String)
    (ho : o ≠ "") (hr : r ≠ "") (hf : f ≠ "")
    (hfetch : oracle (computeGithubURI (rt.getD defaultRoot) o r f "/helix-version.txt")
      = FetchResult.ok 404 t) :
    (main ⟨some o, some r, some f, rt⟩ oracle).1 =
      { statusCode := 200
        body := "no version"
        headers := [("Cache-Control", "no-store, private, must-revalidate"),
          ("Surrogate-Control", "max-age: 30"),
          ("Surrogate-Key", "preflight-" ++ f ++ "--" ++ r ++ "--" ++ o),
          ("Vary", "X-Owner,X-Repo,X-Ref,X-Repo-Root-Path")] } := by
  simp only [main, Option.getD_some]
  rw [if_neg (by simp [ho, hr, hf]), hfetch]
  simp [getVersion, cacheControl]

/-- C3 witness: the repository's own 404 test case. -/
theorem c3_witness :
    (main ⟨some "test-owner", some "test-repo", some "main", none⟩
        (fun _ => FetchResult.ok 404 "")).1 =
      { statusCode := 200
        body := "no version"
        headers := [("Cache-Control", "no-store, private, must-revalidate"),
          ("Surrogate-Control", "max-age: 30"),
          ("Surrogate-Key", "preflight-main--test-repo--test-owner"),
          ("Vary", "X-Owner,X-Repo,X-Ref,X-Repo-Root-Path")] } :=
  c3_404_no_version "test-owner" "test-repo" "main" none _ ""
    (by decide) (by decide) (by decide) rfl

/-- C4: for a valid request whose outbound GET either returns a non-2xx
status other than 404 or fails with a transport (network/timeout) error,
`main` returns exactly the 504 response with body
`"unable to fetch version"` and the single `Cache-Control` header, after
its single fetch attempt. -/
theorem c4_fetch_failure_504 (o r f : String) (rt : Option String)
    (oracle : String → FetchResult)
    (ho : o ≠ "") (hr : r ≠ "") (hf : f ≠ "")
    (herr : oracle (computeGithubURI (rt.getD defaultRoot) o r f "/helix-version.txt")
        = FetchResult.netError
      ∨ ∃ st t, oracle (computeGithubURI (rt.getD defaultRoot) o r f "/helix-version.txt")
          = FetchResult.ok st t ∧ ¬(200 ≤ st ∧ st < 300) ∧ st ≠ 404) :
    main ⟨some o, some r, some f, rt⟩ oracle =
      ({ statusCode := 504
         body := "unable to fetch version"
         headers := [("Cache-Control", "no-store, private, must-revalidate")] },
       [computeGithubURI (rt.getD defaultRoot) o r f "/helix-version.txt"]) := by
  simp only [main, Option.getD_some]
  rw [if_neg (by simp [ho, hr, hf])]
  rcases herr with hnet | ⟨st, t, hok, hnot2xx, h404⟩
  · rw [hnet]
    simp [getVersion, errorResponse, cacheControl]
  · rw [hok]
    simp only [getVersion, if_neg hnot2xx, if_pos h404]
    simp [errorResponse, cacheControl]

/-- C4 witness: the repository's own 500 test case. -/
theorem c4_witness :
    main ⟨some "test-owner", some "test-repo", some "main", none⟩
        (fun _ => FetchResult.ok 500 "") =
      ({ statusCode := 504
         body := "unable to fetch version"
         headers := [("Cache-Control", "no-store, private, must-revalidate")] },
       [computeGithubURI defaultRoot "test-owner" "test-repo" "main" "/helix-version.txt"]) :=
  c4_fetch_failure_504 "test-owner" "test-repo" "main" none _
    (by decide) (by decide) (by decide)
    (Or.inr ⟨500, "", rfl, by decide, by decide⟩)

/-- C5: the target URL is the root's non-path prefix followed by the
slash-collapsed concatenation of the root's path with
`/{owner}/{repo}/{ref}/{path}`; the collapsed part never contains `//`;
and the default root parses into the prefix
`https://raw.githubusercontent.com` with base path `/`, so the default
root plus owner/repo/ref never yields `//` in the path. -/
theorem c5_url_construction (root owner repo ref path : String) :
    computeGithubURI root owner repo ref path =
      (splitRoot root).1 ++
        collapseSlashes ((splitRoot root).2.getD "null"
          ++ "/" ++ owner ++ "/" ++ repo ++ "/" ++ ref ++ "/" ++ path) ∧
    ¬ (['/', '/'] <:+:
        (collapseSlashes ((splitRoot root).2.getD "null"
          ++ "/" ++ owner ++ "/" ++ repo ++ "/" ++ ref ++ "/" ++ path)).data) ∧
    splitRoot defaultRoot = ("https://raw.githubusercontent.com", some "/") :=
  ⟨rfl, collapseSlashes_no_double_slash _, by decide⟩

/-- C6: the root used to build the outbound URL is the default
`https://raw.githubusercontent.com/` exactly when the `x-repo-root-path`
field is absent (`Option.getD defaultRoot`), and the supplied root
otherwise; every URL `main` fetches is built from that root and the
request's owner, repo and ref. -/
theorem c6_root_default (p : Params) (oracle : String → FetchResult) (u : String)
    (hu : u ∈ (main p oracle).2) :
    u = computeGithubURI (p.root.getD defaultRoot) (p.owner.getD "") (p.repo.getD "")
          (p.ref.getD "") "/helix-version.txt" := by
  obtain ⟨ow, rp, rf, rt⟩ := p
  simp only [main] at hu
  split at hu
  · simp at hu
  · split at hu
    · simp_all
    · split at hu <;> simp_all

/-- C6 witness: with no `x-repo-root-path` supplied, the one URL fetched is
built from the default root. -/
theorem c6_witness :
    "https://raw.githubusercontent.com/o/r/f/helix-version.txt" =
      computeGithubURI defaultRoot "o" "r" "f" "/helix-version.txt" :=
  c6_root_default ⟨some "o", some "r", some "f", none⟩ (fun _ => FetchResult.netError)
    "https://raw.githubusercontent.com/o/r/f/helix-version.txt" (by decide)

/-- C7: `main` performs at most one outbound GET; any URL it fetches is
`{root}/{owner}/{repo}/{ref}/helix-version.txt`; and when that single
attempt fails (`getVersion` yields an error) the result is immediately the
504 response — no retry happens (the trace still holds just that one
URL). -/
theorem c7_single_fetch_no_retry (p : Params) (oracle : String → FetchResult) :
    (main p oracle).2.length ≤ 1 ∧
    ∀ u ∈ (main p oracle).2,
      u = computeGithubURI (p.root.getD defaultRoot) (p.owner.getD "") (p.repo.getD "")
            (p.ref.getD "") "/helix-version.txt" ∧
      ∀ e, getVersion (oracle u) = Except.error e →
        main p oracle =
          ({ statusCode := 504
             body := "unable to fetch version"
             headers := [("Cache-Control", "no-store, private, must-revalidate")] }, [u]) := by
  obtain ⟨ow, rp, rf, rt⟩ := p
  simp only [main]
  split
  · simp
  · split
    · next heq =>
      refine ⟨by simp, ?_⟩
      intro u hu
      simp only [List.mem_singleton] at hu
      subst hu
      exact ⟨rfl, fun e _ => by simp [errorResponse, cacheControl]⟩
    · next version heq =>
      refine ⟨by split <;> simp, ?_⟩
      intro u hu
      have hu' : u = computeGithubURI (rt.getD defaultRoot) (ow.getD "") (rp.getD "")
          (rf.getD "") "/helix-version.txt" := by
        split at hu <;> simpa using hu
      refine ⟨hu', ?_⟩
      intro e he
      rw [hu'] at he
      rw [heq] at he
      exact absurd he (by simp)

/-- C8: on every input — any combination of present, empty and missing
fields, and any outcome of the single fetch including a thrown transport
error — `main` (a total function of the request and the fetch oracle)
returns a response whose status is 200, 400 or 504 and which carries at
least the `Cache-Control` header; no exception escapes. -/
theorem c8_always_wellformed (p : Params) (oracle : String → FetchResult) :
    ((main p oracle).1.statusCode = 200 ∨ (main p oracle).1.statusCode = 400
      ∨ (main p oracle).1.statusCode = 504) ∧
    ("Cache-Control", "no-store, private, must-revalidate") ∈ (main p oracle).1.headers := by
  obtain ⟨ow, rp, rf, rt⟩ := p
  simp only [main]
  split
  · simp [errorResponse, cacheControl]
  · split
    · simp [errorResponse, cacheControl]
    · split <;> simp [cacheControl]

/-- C9 counterexample: when `x-repo-root-path` is supplied as the empty
string, the two variants build different outbound URLs (the headers-object
variant uses the empty root, the `||`-defaulting variant falls back to the
default root), so an oracle that only answers at the default-root URL makes
their responses differ: 504 versus 200. -/
theorem c9_counterexample :
    (main ⟨some "o", some "r", some "f", some ""⟩
        (fun u => if u = "https://raw.githubusercontent.com/o/r/f/helix-version.txt"
          then FetchResult.ok 200 "v" else FetchResult.netError)).1 ≠
      (mainPart000 ⟨some "o", some "r", some "f", some ""⟩
        (fun u => if u = "https://raw.githubusercontent.com/o/r/f/helix-version.txt"
          then FetchResult.ok 200 "v" else FetchResult.netError)).1 := by
  decide

/-- C9 (amended): the two variants of `main` compute the same response
status, body and headers for every pair of equivalent inputs in which the
`x-repo-root-path` field is not supplied as an empty string; when it is,
the flattened-parameters variant uses the empty root while the
headers-object variant falls back to the default root, and the responses
can differ. -/
theorem c9_variants_agree (p : Params) (oracle : String → FetchResult)
    (h : p.root ≠ some "") :
    (main p oracle).1 = (mainPart000 p oracle).1 := by
  obtain ⟨ow, rp, rf, rt⟩ := p
  have hroot : (if jsTruthy rt then rt.getD "" else defaultRoot) = rt.getD defaultRoot := by
    cases rt with
    | none => rfl
    | some s =>
      have hs : s ≠ "" := by
        intro hs
        exact h (by simp [hs])
      simp [jsTruthy, hs]
  simp only [main, mainPart000, hroot]

/-- C9 witness: on a request with no `x-repo-root-path`, the two variants
produce the same response. -/
theorem c9_witness :
    (main ⟨some "o", some "r", some "f", none⟩ (fun _ => FetchResult.ok 200 "v")).1 =
      (mainPart000 ⟨some "o", some "r", some "f", none⟩ (fun _ => FetchResult.ok 200 "v")).1 :=
  c9_variants_agree ⟨some "o", some "r", some "f", none⟩ (fun _ => FetchResult.ok 200 "v")
    (by decide)

/-- C10: a 2xx reply whose body trims to the empty string is handled
exactly like the 404 case: status 200, body `"no version"`, and no
`x-pages-version` header, even though the remote returned success. -/
theorem c10_whitespace_body_no_version (o r f : String) (rt : Option String)
    (oracle : String → FetchResult) (st : Nat) (t : String)
    (ho : o ≠ "") (hr : r ≠ "") (hf : f ≠ "")
    (h200 : 200 ≤ st) (h300 : st < 300)
    (hfetch : oracle (computeGithubURI (rt.getD defaultRoot) o r f "/helix-version.txt")
      = FetchResult.ok st t)
    (hws : jsTrim t = "") :
    (main ⟨some o, some r, some f, rt⟩ oracle).1 =
      { statusCode := 200
        body := "no version"
        headers := [("Cache-Control", "no-store, private, must-revalidate"),
          ("Surrogate-Control", "max-age: 30"),
          ("Surrogate-Key", "preflight-" ++ f ++ "--" ++ r ++ "--" ++ o),
          ("Vary", "X-Owner,X-Repo,X-Ref,X-Repo-Root-Path")] } := by
  simp only [main, Option.getD_some]
  rw [if_neg (by simp [ho, hr, hf]), hfetch]
  simp only [getVersion, if_pos (And.intro h200 h300)]
  rw [if_neg (by simp [hws])]
  rfl

/-- C10 witness: a 200 reply whose body is only whitespace yields the
`"no version"` response. -/
theorem c10_witness :
    (main ⟨some "test-owner", some "test-repo", some "main", none⟩
        (fun _ => FetchResult.ok 200 "  \n ")).1 =
      { statusCode := 200
        body := "no version"
        headers := [("Cache-Control", "no-store, private, must-revalidate"),
          ("Surrogate-Control", "max-age: 30"),
          ("Surrogate-Key", "preflight-main--test-repo--test-owner"),
          ("Vary", "X-Owner,X-Repo,X-Ref,X-Repo-Root-Path")] } :=
  c10_whitespace_body_no_version "test-owner" "test-repo" "main" none _ 200 "  \n "
    (by decide) (by decide) (by decide) (by decide) (by decide) rfl (by decide)

end HelixVersionPicker
